import Mathlib

/-!
Shallow embedding of the LocationService module of the fypWebPrediction
repository (src/js/locationService.js).

Modelling conventions:

- JavaScript numbers (coordinates, accuracies, timestamps in epoch
  milliseconds) are modelled as rationals; none of the properties under
  study depends on binary floating-point rounding.
- JavaScript truthiness is modelled explicitly: for an optional number,
  null and 0 are falsy (numTruthy); for a string, only the empty string
  is falsy (comparison with the empty string).
- Date values are modelled by their epoch-millisecond timestamp. JSON
  persistence of a Date preserves the denoted instant, so the stored
  record reuses the in-memory record type. A Date object, and likewise
  the non-empty ISO string a restored record holds, is always truthy,
  so the lastUpdate truthiness test in the source is modelled as an
  Option match.
- Each asynchronous operation is modelled as a pure state transformer:
  it takes the current records, the storage state and the outcome of its
  single external call (the geolocation fix, the geocoding response, a
  weather response) and returns its result together with the updated
  records. The clock is passed in as the value new Date() would produce.
- localStorage is modelled by Storage. The two write counters count
  setItem calls, so that the absence of a write on a failure path is
  expressible as an unchanged storage state.
- Network payloads the module treats as opaque JSON are modelled as
  strings.
-/

namespace LocationService

/-- Source constant ACCURACY_THRESHOLD: 50 meters. -/
def ACCURACY_THRESHOLD : ℚ := 50

/-- Source constant TIMEOUT: 20000 ms; it appears (divided by 1000) in the
timeout error message. -/
def TIMEOUT : Nat := 20000

/-- The location record held by the service: the six fields serialized by
saveLocationToStorage. -/
structure Location where
  latitude : Option ℚ
  longitude : Option ℚ
  accuracy : Option ℚ
  locationName : Option String
  source : String
  lastUpdate : Option ℚ
  deriving DecidableEq

/-- The weather cache record: the three fields serialized by
saveWeatherToStorage. -/
structure WeatherData where
  current : Option String
  forecast : Option String
  lastUpdate : Option ℚ
  deriving DecidableEq

/-- The localStorage state: the two keys the module uses, plus counters of
setItem calls on each key (so that the absence of a write is visible). -/
structure Storage where
  userLocation : Option Location
  weatherData : Option WeatherData
  locationWrites : Nat
  weatherWrites : Nat
  deriving DecidableEq

/-- The initial in-memory location record from the source: all fields
null, source set to the string none. -/
def initialLocation : Location :=
  { latitude := none, longitude := none, accuracy := none, locationName := none,
    source := "none", lastUpdate := none }

/-- The initial weather cache from the source: all fields null. -/
def initialWeatherData : WeatherData :=
  { current := none, forecast := none, lastUpdate := none }

/-- An empty localStorage with zeroed write counters. -/
def emptyStorage : Storage :=
  { userLocation := none, weatherData := none, locationWrites := 0, weatherWrites := 0 }

/-- JavaScript truthiness of an optional number: null and 0 are falsy. -/
def numTruthy : Option ℚ → Bool
  | none => false
  | some v => decide (v ≠ 0)

/-- The coordinate guard shared by reverseGeocode, fetchWeatherData,
fetchForecastData and isLocationValid; in the source it is the negation of
the test that either latitude or longitude is falsy. -/
def coordsTruthy (loc : Location) : Bool :=
  numTruthy loc.latitude && numTruthy loc.longitude

/-- Left-pads a digit string with zeros to the requested width. -/
def padZeros (d : Nat) (s : String) : String :=
  String.mk (List.replicate (d - s.length) '0') ++ s

/-- Model of the JavaScript Number.prototype.toFixed: rounds to d decimal
digits, ties toward positive infinity, and renders with exactly d digits
after the point. The scaled integer is the floor of q times ten to the d
plus one half, computed on numerator and denominator with integer floor
division. -/
def toFixed (d : Nat) (q : ℚ) : String :=
  let scaled : Int := Int.fdiv (2 * q.num * (10 : Int) ^ d + (q.den : Int)) (2 * (q.den : Int))
  let sign := if scaled < 0 then "-" else ""
  let m := scaled.natAbs
  if d = 0 then sign ++ toString m
  else sign ++ toString (m / 10 ^ d) ++ "." ++ padZeros d (toString (m % 10 ^ d))

/-- The platform geolocation error codes distinguished by the switch in
getGeolocationsErrorMessage; other covers the default branch. -/
inductive GeoErrCode where
  | permissionDenied
  | positionUnavailable
  | timeout
  | other
  deriving DecidableEq

/-- Source function getGeolocationsErrorMessage: maps a platform error
code to its human-readable message. -/
def getGeolocationsErrorMessage : GeoErrCode → String
  | .permissionDenied => "Location access denied. Please enable location permissions."
  | .timeout =>
      "Location request timed out (" ++ toString (TIMEOUT / 1000) ++
        "s). Could not get accurate fix. Try again outdoors."
  | .positionUnavailable => "Location data unavailable."
  | .other => "An unexpected geolocation error occurred."

/-- The possible outcomes of the platform geolocation request: the
capability is missing, the platform reports an error, or a fix arrives
with a reported accuracy. -/
inductive GeoOutcome where
  | unsupported
  | err (code : GeoErrCode)
  | fix (lat lon acc : ℚ)
  deriving DecidableEq

/-- The rejection values of getCurrentLocation: the constant rejection
when geolocation is missing, the mapped platform error, and the accuracy
rejection carrying the measured accuracy. -/
inductive GeoError where
  | unsupported
  | platform (code : GeoErrCode)
  | accuracyRejected (measured : ℚ)
  deriving DecidableEq

/-- The message string each rejection of getCurrentLocation carries in the
source; the accuracy message renders the measured value with toFixed(0)
and the threshold 50. -/
def geoErrorMessage : GeoError → String
  | .unsupported => "Geolocation not supported"
  | .platform c => getGeolocationsErrorMessage c
  | .accuracyRejected a =>
      "Accuracy too low: " ++ toFixed 0 a ++ "m (need " ++
        toString ACCURACY_THRESHOLD.num ++ "m or better)"

/-- Source function saveLocationToStorage: setItem of the six location
fields under the key userLocation. -/
def saveLocationToStorage (loc : Location) (st : Storage) : Storage :=
  { st with userLocation := some loc, locationWrites := st.locationWrites + 1 }

/-- Source function restoreLocationFromStorage: when a record is stored it
replaces the whole in-memory record, otherwise the record is untouched. -/
def restoreLocationFromStorage (loc : Location) (st : Storage) : Location :=
  match st.userLocation with
  | some stored => stored
  | none => loc

/-- Source function saveWeatherToStorage: setItem of the three weather
fields under the key weatherData. -/
def saveWeatherToStorage (w : WeatherData) (st : Storage) : Storage :=
  { st with weatherData := some w, weatherWrites := st.weatherWrites + 1 }

/-- Source function restoreWeatherFromStorage. -/
def restoreWeatherFromStorage (w : WeatherData) (st : Storage) : WeatherData :=
  match st.weatherData with
  | some stored => stored
  | none => w

/-- Source function getCurrentLocation, as a function of the geolocation
outcome. On a fix it applies the accuracy gate: above the threshold the
record and storage are untouched and the call rejects carrying the
measured accuracy; otherwise it commits latitude, longitude, accuracy,
source auto and lastUpdate, persists via saveLocationToStorage, and
resolves with the committed record. The un-awaited reverseGeocode trigger
runs after the promise settles and is modelled as a separate step. -/
def getCurrentLocation (loc : Location) (st : Storage) (outcome : GeoOutcome) (now : ℚ) :
    Except GeoError Location × Location × Storage :=
  match outcome with
  | .unsupported => (Except.error GeoError.unsupported, loc, st)
  | .err c => (Except.error (GeoError.platform c), loc, st)
  | .fix lat lon acc =>
      if acc > ACCURACY_THRESHOLD then
        (Except.error (GeoError.accuracyRejected acc), loc, st)
      else
        let committed : Location :=
          { loc with latitude := some lat, longitude := some lon, accuracy := some acc,
                     source := "auto", lastUpdate := some now }
        (Except.ok committed, committed, saveLocationToStorage committed st)

/-- One reverse-geocoding candidate as returned by the geocoding API; a
missing field is defaulted to the empty string by the source. -/
structure GeoCandidate where
  name : Option String
  state : Option String
  country : Option String
  deriving DecidableEq

/-- The outcome of the reverse-geocoding call: a thrown transport error
(fetch rejection, non-ok response, or unparsable body), or a parsed,
possibly empty, candidate list. -/
inductive GeocodeOutcome where
  | transportError
  | okResults (results : List GeoCandidate)
  deriving DecidableEq

/-- Source function reverseGeocode. A falsy coordinate makes it a no-op.
On a candidate it derives the display name by the preference chain of the
source and persists; on an empty list it persists without touching the
name; on a thrown error the catch block sets the name to the coordinates
rendered with toFixed(4), without persisting. It never throws. -/
def reverseGeocode (loc : Location) (st : Storage) (outcome : GeocodeOutcome) :
    Location × Storage :=
  if coordsTruthy loc then
    match outcome with
    | .transportError =>
        let fallback := toFixed 4 (loc.latitude.getD 0) ++ ", " ++ toFixed 4 (loc.longitude.getD 0)
        ({ loc with locationName := some fallback }, st)
    | .okResults [] => (loc, saveLocationToStorage loc st)
    | .okResults (geo :: _) =>
        let city := geo.name.getD ""
        let state := geo.state.getD ""
        let country := geo.country.getD ""
        let named : Location :=
          if city ≠ "" ∧ state ≠ "" then { loc with locationName := some (city ++ ", " ++ state) }
          else if city ≠ "" then { loc with locationName := some (city ++ ", " ++ country) }
          else if state ≠ "" then { loc with locationName := some (state ++ ", " ++ country) }
          else { loc with locationName := some country }
        (named, saveLocationToStorage named st)
  else (loc, st)

/-- The outcome of one weather API call: a failure (transport error,
non-ok response, or unparsable body) or a successful opaque payload. -/
inductive FetchOutcome where
  | failure
  | success (payload : String)
  deriving DecidableEq

/-- Source function fetchWeatherData. A falsy coordinate returns null
without issuing a request; a failure returns null leaving cache and
storage untouched; a success stores the payload, stamps lastUpdate,
persists and returns the payload. The final Bool records whether a
network request was issued. -/
def fetchWeatherData (loc : Location) (w : WeatherData) (st : Storage)
    (outcome : FetchOutcome) (now : ℚ) :
    Option String × WeatherData × Storage × Bool :=
  if coordsTruthy loc then
    match outcome with
    | .success payload =>
        let w2 : WeatherData := { w with current := some payload, lastUpdate := some now }
        (some payload, w2, saveWeatherToStorage w2 st, true)
    | .failure => (none, w, st, true)
  else (none, w, st, false)

/-- Source function fetchForecastData: symmetric to fetchWeatherData for
the forecast payload. -/
def fetchForecastData (loc : Location) (w : WeatherData) (st : Storage)
    (outcome : FetchOutcome) (now : ℚ) :
    Option String × WeatherData × Storage × Bool :=
  if coordsTruthy loc then
    match outcome with
    | .success payload =>
        let w2 : WeatherData := { w with forecast := some payload, lastUpdate := some now }
        (some payload, w2, saveWeatherToStorage w2 st, true)
    | .failure => (none, w, st, true)
  else (none, w, st, false)

/-- Source function getAllWeatherData: fetchWeatherData then
fetchForecastData, sequentially, returning both results. -/
def getAllWeatherData (loc : Location) (w : WeatherData) (st : Storage)
    (oCurrent oForecast : FetchOutcome) (now1 now2 : ℚ) :
    (Option String × Option String) × WeatherData × Storage :=
  let rc := fetchWeatherData loc w st oCurrent now1
  let rf := fetchForecastData loc rc.2.1 rc.2.2.1 oForecast now2
  ((rc.1, rf.1), rf.2.1, rf.2.2.1)

/-- Source function isLocationValid; the source defaults maxAgeMins to 5.
A falsy coordinate returns false; a present lastUpdate (a Date object or
the non-empty restored string, both always truthy) selects the strict age
comparison in minutes; an absent lastUpdate returns true. -/
def isLocationValid (loc : Location) (nowMs : ℚ) (maxAgeMins : ℚ) : Bool :=
  if coordsTruthy loc then
    match loc.lastUpdate with
    | some t => decide ((nowMs - t) / 60000 < maxAgeMins)
    | none => true
  else false

/-- The scenario latitude 3.1390 as the rational 3139/1000. -/
def latKL : ℚ := ⟨3139, 1000, by decide, by decide⟩

/-- The scenario longitude 101.6869 as the rational 1016869/10000. -/
def lonKL : ℚ := ⟨1016869, 10000, by decide, by decide⟩

/-- C1: for every accuracy value a reported by the fix, getCurrentLocation
commits latitude, longitude, accuracy, source auto and lastUpdate into the
record and persists it exactly when a is at most ACCURACY_THRESHOLD; when
a exceeds the threshold the pre-call record and storage are unchanged in
every field and the call rejects with the accuracy error carrying the
measured value a. -/
theorem getCurrentLocation_accuracy_gate (loc : Location) (st : Storage)
    (lat lon a now : ℚ) :
    getCurrentLocation loc st (GeoOutcome.fix lat lon a) now =
      if a ≤ ACCURACY_THRESHOLD then
        (Except.ok
            { loc with latitude := some lat, longitude := some lon, accuracy := some a,
                       source := "auto", lastUpdate := some now },
          { loc with latitude := some lat, longitude := some lon, accuracy := some a,
                     source := "auto", lastUpdate := some now },
          saveLocationToStorage
            { loc with latitude := some lat, longitude := some lon, accuracy := some a,
                       source := "auto", lastUpdate := some now } st)
      else (Except.error (GeoError.accuracyRejected a), loc, st) := by
  by_cases h : a ≤ ACCURACY_THRESHOLD
  · simp only [getCurrentLocation, gt_iff_lt, if_neg (not_lt.mpr h), if_pos h]
  · simp only [getCurrentLocation, gt_iff_lt, if_pos (not_le.mp h), if_neg h]

/-- C2 counterexample: a record with latitude 0 (a real coordinate on the
equator, not null), longitude 5 and null lastUpdate has non-null
coordinates and null lastUpdate, yet isLocationValid returns false,
contradicting the claim that with non-null coordinates a null lastUpdate
is treated as always fresh. -/
theorem isLocationValid_zero_latitude_cex :
    (⟨some 0, some 5, some 10, none, "auto", none⟩ : Location).latitude ≠ none ∧
    (⟨some 0, some 5, some 10, none, "auto", none⟩ : Location).longitude ≠ none ∧
    (⟨some 0, some 5, some 10, none, "auto", none⟩ : Location).lastUpdate = none ∧
    isLocationValid ⟨some 0, some 5, some 10, none, "auto", none⟩ 1000 5 = false := by
  refine ⟨by decide, by decide, rfl, ?_⟩
  simp [isLocationValid, coordsTruthy, numTruthy]

/-- C2 amended: isLocationValid is a pure query that returns false when
either coordinate is null; when both coordinates are non-null and
non-zero it returns true when lastUpdate is null (treated as always
fresh), and otherwise returns true exactly when the elapsed time since
lastUpdate is strictly less than maxAgeMins minutes. -/
theorem isLocationValid_spec (loc : Location) (nowMs maxAge : ℚ) :
    ((loc.latitude = none ∨ loc.longitude = none) → isLocationValid loc nowMs maxAge = false) ∧
    (∀ la lo : ℚ, loc.latitude = some la → la ≠ 0 → loc.longitude = some lo → lo ≠ 0 →
      (loc.lastUpdate = none → isLocationValid loc nowMs maxAge = true) ∧
      (∀ t : ℚ, loc.lastUpdate = some t →
        (isLocationValid loc nowMs maxAge = true ↔ (nowMs - t) / 60000 < maxAge))) := by
  constructor
  · intro h
    have hc : coordsTruthy loc = false := by
      rcases h with h | h <;> simp [coordsTruthy, h, numTruthy]
    simp [isLocationValid, hc]
  · intro la lo hla hla0 hlo hlo0
    have hc : coordsTruthy loc = true := by
      simp [coordsTruthy, hla, hlo, numTruthy, hla0, hlo0]
    refine ⟨fun hu => by simp [isLocationValid, hc, hu], fun t ht => ?_⟩
    simp [isLocationValid, hc, ht]

/-- C2 witness: a record whose lastUpdate is 299000 ms (4 minutes 59
seconds) in the past is valid for the 5-minute window; instantiates the
amended theorem at latitude 3, longitude 101, lastUpdate 0, clock
299000. -/
theorem isLocationValid_spec_witness :
    isLocationValid ⟨some 3, some 101, some 12, none, "auto", some 0⟩ 299000 5 = true := by
  have h := ((isLocationValid_spec ⟨some 3, some 101, some 12, none, "auto", some 0⟩
      299000 5).2 3 101 rfl (by norm_num) rfl (by norm_num)).2 0 rfl
  exact h.mpr (by norm_num)

/-- C3 counterexample: starting from the initial record, a fix at the
scenario coordinates with accuracy 12 is committed with locationName
still null, and a reverse-geocode call that succeeds with an empty result
list leaves locationName null: the 4-decimal fallback runs only in the
catch block, so the name can stay null after a successful commit. -/
theorem reverseGeocode_empty_result_cex :
    (getCurrentLocation initialLocation emptyStorage
        (GeoOutcome.fix latKL lonKL 12) 0).2.1.latitude = some latKL ∧
    (getCurrentLocation initialLocation emptyStorage
        (GeoOutcome.fix latKL lonKL 12) 0).2.1.locationName = none ∧
    (reverseGeocode
        (getCurrentLocation initialLocation emptyStorage (GeoOutcome.fix latKL lonKL 12) 0).2.1
        (getCurrentLocation initialLocation emptyStorage (GeoOutcome.fix latKL lonKL 12) 0).2.2
        (GeocodeOutcome.okResults [])).1.locationName = none := by
  refine ⟨?_, ?_, ?_⟩ <;> decide

/-- C3 amended: for a record with truthy coordinates, when the
reverse-geocode call throws (transport error, non-ok response or
unparsable body) the catch block sets locationName to the coordinates
rendered with toFixed(4) as lat comma lon, and the operation completes
normally; when the call succeeds with an empty result list locationName
is left unchanged, so it may remain null. No error propagates to the
caller in either case. -/
theorem reverseGeocode_failure_fallback (la lo : ℚ) (acc : Option ℚ) (nm : Option String)
    (src : String) (lu : Option ℚ) (st : Storage) (hla : la ≠ 0) (hlo : lo ≠ 0) :
    (reverseGeocode ⟨some la, some lo, acc, nm, src, lu⟩ st
        GeocodeOutcome.transportError).1.locationName =
      some (toFixed 4 la ++ ", " ++ toFixed 4 lo) ∧
    (reverseGeocode ⟨some la, some lo, acc, nm, src, lu⟩ st
        (GeocodeOutcome.okResults [])).1.locationName = nm := by
  have hc : coordsTruthy ⟨some la, some lo, acc, nm, src, lu⟩ = true := by
    simp [coordsTruthy, numTruthy, hla, hlo]
  constructor <;> simp [reverseGeocode, hc]

/-- C3 witness: at the scenario coordinates 3.1390 and 101.6869 the
transport-error fallback name is the 4-decimal coordinate string. -/
theorem reverseGeocode_failure_fallback_witness :
    (reverseGeocode ⟨some latKL, some lonKL, some 12, none, "auto", none⟩ emptyStorage
        GeocodeOutcome.transportError).1.locationName = some "3.1390, 101.6869" := by
  have h := (reverseGeocode_failure_fallback latKL lonKL (some 12) none "auto" none
      emptyStorage (by decide) (by decide)).1
  exact h.trans (by decide)

/-- C4: a failing fetchWeatherData or fetchForecastData call returns null
and leaves the cached weather record untouched; and a partial refresh in
which the current fetch succeeds and the forecast fetch fails updates
current and lastUpdate and persists the cache, while the forecast payload
stays what it was before the call. -/
theorem weatherFetch_failure_and_partial_refresh (loc : Location) (w : WeatherData)
    (st : Storage) (now1 now2 : ℚ) (p : String) :
    ((fetchWeatherData loc w st FetchOutcome.failure now1).1 = none ∧
     (fetchWeatherData loc w st FetchOutcome.failure now1).2.1 = w ∧
     (fetchForecastData loc w st FetchOutcome.failure now1).1 = none ∧
     (fetchForecastData loc w st FetchOutcome.failure now1).2.1 = w) ∧
    (∀ la lo : ℚ, loc.latitude = some la → la ≠ 0 → loc.longitude = some lo → lo ≠ 0 →
      getAllWeatherData loc w st (FetchOutcome.success p) FetchOutcome.failure now1 now2 =
        ((some p, none), { w with current := some p, lastUpdate := some now1 },
          saveWeatherToStorage { w with current := some p, lastUpdate := some now1 } st)) := by
  constructor
  · rcases h : coordsTruthy loc <;>
      simp [fetchWeatherData, fetchForecastData, h]
  · intro la lo hla hla0 hlo hlo0
    have hc : coordsTruthy loc = true := by
      simp [coordsTruthy, hla, hlo, numTruthy, hla0, hlo0]
    simp [getAllWeatherData, fetchWeatherData, fetchForecastData, hc]

/-- C4 witness: with prior cache holding an old current payload, an old
forecast payload and lastUpdate 5, a successful current fetch at time 7
followed by a failing forecast fetch yields the new current payload, a
null forecast result, the forecast cache entry unchanged, lastUpdate 7,
and one persisted weather write. -/
theorem weatherFetch_failure_and_partial_refresh_witness :
    getAllWeatherData ⟨some 3, some 101, some 12, none, "auto", none⟩
        ⟨some "oldCurrent", some "oldForecast", some 5⟩ emptyStorage
        (FetchOutcome.success "newCurrent") FetchOutcome.failure 7 8 =
      ((some "newCurrent", none), ⟨some "newCurrent", some "oldForecast", some 7⟩,
        ⟨none, some ⟨some "newCurrent", some "oldForecast", some 7⟩, 0, 1⟩) := by
  have h := (weatherFetch_failure_and_partial_refresh
      ⟨some 3, some 101, some 12, none, "auto", none⟩
      ⟨some "oldCurrent", some "oldForecast", some 5⟩ emptyStorage 7 8 "newCurrent").2
      3 101 rfl (by norm_num) rfl (by norm_num)
  exact h.trans (by decide)

/-- C5 counterexample: a record whose display name is already set, given a
first candidate with all components empty, gets locationName assigned the
empty string: the field is overwritten, not left unset. -/
theorem reverseGeocode_empty_components_cex :
    (⟨some 3, some 101, some 12, some "Old Town", "auto", none⟩ : Location).locationName =
      some "Old Town" ∧
    (reverseGeocode ⟨some 3, some 101, some 12, some "Old Town", "auto", none⟩ emptyStorage
        (GeocodeOutcome.okResults [⟨some "", some "", some ""⟩])).1.locationName = some "" := by
  refine ⟨rfl, ?_⟩
  decide

/-- C5 amended: for the first candidate of a successful reverse-geocode
response, the derived name follows the deterministic preference order
city+state, then city+country, then state+country, then country alone;
when no components resolve locationName is set to the empty string (the
empty country component), not left unset. -/
theorem reverseGeocode_naming_order (la lo : ℚ) (acc : Option ℚ) (nm : Option String)
    (src : String) (lu : Option ℚ) (st : Storage) (c : GeoCandidate)
    (rest : List GeoCandidate) (hla : la ≠ 0) (hlo : lo ≠ 0) :
    (c.name.getD "" ≠ "" → c.state.getD "" ≠ "" →
      (reverseGeocode ⟨some la, some lo, acc, nm, src, lu⟩ st
          (GeocodeOutcome.okResults (c :: rest))).1.locationName =
        some (c.name.getD "" ++ ", " ++ c.state.getD "")) ∧
    (c.name.getD "" ≠ "" → c.state.getD "" = "" →
      (reverseGeocode ⟨some la, some lo, acc, nm, src, lu⟩ st
          (GeocodeOutcome.okResults (c :: rest))).1.locationName =
        some (c.name.getD "" ++ ", " ++ c.country.getD "")) ∧
    (c.name.getD "" = "" → c.state.getD "" ≠ "" →
      (reverseGeocode ⟨some la, some lo, acc, nm, src, lu⟩ st
          (GeocodeOutcome.okResults (c :: rest))).1.locationName =
        some (c.state.getD "" ++ ", " ++ c.country.getD "")) ∧
    (c.name.getD "" = "" → c.state.getD "" = "" →
      (reverseGeocode ⟨some la, some lo, acc, nm, src, lu⟩ st
          (GeocodeOutcome.okResults (c :: rest))).1.locationName =
        some (c.country.getD "")) := by
  have hc : coordsTruthy ⟨some la, some lo, acc, nm, src, lu⟩ = true := by
    simp [coordsTruthy, numTruthy, hla, hlo]
  refine ⟨fun h1 h2 => ?_, fun h1 h2 => ?_, fun h1 h2 => ?_, fun h1 h2 => ?_⟩ <;>
    simp [reverseGeocode, hc, h1, h2]

/-- C5 witness: the scenario candidate with name Kuala Lumpur, empty
state and country MY, at the scenario coordinates, yields the display
name Kuala Lumpur comma MY. -/
theorem reverseGeocode_naming_order_witness :
    (reverseGeocode ⟨some latKL, some lonKL, some 12, none, "auto", none⟩ emptyStorage
        (GeocodeOutcome.okResults [⟨some "Kuala Lumpur", some "", some "MY"⟩])).1.locationName =
      some "Kuala Lumpur, MY" := by
  have h := (reverseGeocode_naming_order latKL lonKL (some 12) none "auto" none emptyStorage
      ⟨some "Kuala Lumpur", some "", some "MY"⟩ [] (by decide) (by decide)).2.1
      (by decide) (by decide)
  exact h.trans (by decide)

/-- C6: for every platform geolocation failure and for absence of the
geolocation capability, getCurrentLocation rejects with the error whose
message is the human-readable string mapped from the failure kind, and
the location record and storage are left unmodified in every field. -/
theorem getCurrentLocation_platform_failure (loc : Location) (st : Storage)
    (now : ℚ) (c : GeoErrCode) :
    getCurrentLocation loc st (GeoOutcome.err c) now =
      (Except.error (GeoError.platform c), loc, st) ∧
    geoErrorMessage (GeoError.platform c) = getGeolocationsErrorMessage c ∧
    getCurrentLocation loc st GeoOutcome.unsupported now =
      (Except.error GeoError.unsupported, loc, st) ∧
    geoErrorMessage GeoError.unsupported = "Geolocation not supported" :=
  ⟨rfl, rfl, rfl, rfl⟩

/-- C7: persisting the in-memory record and then restoring, as a page
reload does, reproduces the record exactly, hence every field agrees. -/
theorem persist_restore_roundtrip (loc cur : Location) (st : Storage) :
    restoreLocationFromStorage cur (saveLocationToStorage loc st) = loc := rfl

/-- C8: restoring twice from the same storage with no intervening persist
yields the same in-memory record as restoring once. -/
theorem restore_idempotent (loc : Location) (st : Storage) :
    restoreLocationFromStorage (restoreLocationFromStorage loc st) st =
      restoreLocationFromStorage loc st := by
  rcases h : st.userLocation with _ | s <;> simp [restoreLocationFromStorage, h]

/-- C9: a record in which latitude or longitude equals 0 - a real
coordinate on the equator or prime meridian, not null - is treated by
every coordinate-guarded operation exactly like a record with null
coordinates: isLocationValid returns false, reverseGeocode is a no-op on
record and storage, and both weather fetches return null without issuing
a request and without touching cache or storage. -/
theorem zero_coordinate_guards (loc : Location) (w : WeatherData) (st : Storage)
    (nowMs maxAge now : ℚ) (g : GeocodeOutcome) (f : FetchOutcome)
    (h : loc.latitude = some 0 ∨ loc.longitude = some 0) :
    isLocationValid loc nowMs maxAge = false ∧
    reverseGeocode loc st g = (loc, st) ∧
    fetchWeatherData loc w st f now = (none, w, st, false) ∧
    fetchForecastData loc w st f now = (none, w, st, false) := by
  have hc : coordsTruthy loc = false := by
    rcases h with h | h <;> simp [coordsTruthy, h, numTruthy]
  refine ⟨?_, ?_, ?_, ?_⟩ <;>
    simp [isLocationValid, reverseGeocode, fetchWeatherData, fetchForecastData, hc]

/-- C9 witness: instantiates the guard theorem at a record with latitude
0 and longitude 101, a transport-error geocode outcome and a failing
fetch outcome. -/
theorem zero_coordinate_guards_witness :
    isLocationValid ⟨some 0, some 101, some 12, none, "auto", some 0⟩ 1000 5 = false ∧
    reverseGeocode ⟨some 0, some 101, some 12, none, "auto", some 0⟩ emptyStorage
        GeocodeOutcome.transportError =
      (⟨some 0, some 101, some 12, none, "auto", some 0⟩, emptyStorage) ∧
    fetchWeatherData ⟨some 0, some 101, some 12, none, "auto", some 0⟩ initialWeatherData
        emptyStorage FetchOutcome.failure 7 = (none, initialWeatherData, emptyStorage, false) ∧
    fetchForecastData ⟨some 0, some 101, some 12, none, "auto", some 0⟩ initialWeatherData
        emptyStorage FetchOutcome.failure 7 = (none, initialWeatherData, emptyStorage, false) :=
  zero_coordinate_guards ⟨some 0, some 101, some 12, none, "auto", some 0⟩ initialWeatherData
    emptyStorage 1000 5 7 GeocodeOutcome.transportError FetchOutcome.failure (Or.inl rfl)

/-- C10: a failing weather or forecast fetch is atomic: the whole weather
cache record (both payloads and lastUpdate) and the whole storage state
(the persisted weatherData entry and the setItem counters) are exactly as
before the call, so no storage write occurs on the failure path; the
fourth component records whether a network request was issued. -/
theorem weatherFetch_failure_atomic (loc : Location) (w : WeatherData) (st : Storage)
    (now : ℚ) :
    fetchWeatherData loc w st FetchOutcome.failure now = (none, w, st, coordsTruthy loc) ∧
    fetchForecastData loc w st FetchOutcome.failure now = (none, w, st, coordsTruthy loc) := by
  rcases h : coordsTruthy loc <;>
    simp [fetchWeatherData, fetchForecastData, h]

end LocationService

